import Mathlib

/-!
Verification of `src/utils/resume_format_checker.py`.

The embedding models the body of `check_resume_format` after the external
YAML parser has produced an in-memory value (`yaml.safe_load`), i.e. the
recursive `validate_format` pass, the consolidation loop, the
`get_example_snippet` lookup and the message rendering.  Python values are
the inductive `Val`; the schema literal `expected_format` (a Python dict
whose leaves are types, tuples of types, lists and nested dicts) is the
inductive `Schema`; Python exceptions escaping a call are modelled with
`Except PyErr`.  All definitions are plain structural recursion so that
concrete runs reduce inside the kernel.
-/

/-- Result of `yaml.safe_load`: a Python value built from `None`, `bool`,
`int`, `str`, `list` and `dict` (dicts as insertion-ordered key/value lists,
matching Python 3.7+ dict semantics). -/
inductive Val where
  | vnull : Val
  | vbool : Bool → Val
  | vint : Int → Val
  | vstr : String → Val
  | vlist : List Val → Val
  | vdict : List (String × Val) → Val

/-- The primitive Python types that occur in `expected_format`
(`bool`, `int`, `str`). -/
inductive PTy where
  | pbool : PTy
  | pint : PTy
  | pstr : PTy

/-- The schema mini-DSL of `expected_format`: a Python type, a tuple of
types (`(int, str)`), a dict literal, or a list literal. -/
inductive Schema where
  | sty : PTy → Schema
  | stup : List PTy → Schema
  | sdict : List (String × Schema) → Schema
  | slist : List Schema → Schema

/-- Python exceptions this code can raise: `IndexError` from sequence
indexing, `AttributeError` from `expected.__name__` on an object without
`__name__`.  `fuelExhausted` is the out-of-fuel marker of the embedding;
it is proved unreachable for the fuel used by `validate_format`. -/
inductive PyErr where
  | indexError : PyErr
  | attributeError : PyErr
  | fuelExhausted : PyErr
deriving DecidableEq

/-- `type(v).__name__` in Python. -/
def typeName : Val → String
  | .vnull => "NoneType"
  | .vbool _ => "bool"
  | .vint _ => "int"
  | .vstr _ => "str"
  | .vlist _ => "list"
  | .vdict _ => "dict"

/-- `t.__name__` for a primitive type object. -/
def tyName : PTy → String
  | .pbool => "bool"
  | .pint => "int"
  | .pstr => "str"

/-- Python `isinstance(v, t)` for a single primitive type.  Note the Python
subtlety that `bool` is a subclass of `int`, so a `bool` value is an
instance of `int`. -/
def instOf (v : Val) : PTy → Bool
  | .pbool => match v with | .vbool _ => true | _ => false
  | .pint => match v with | .vbool _ => true | .vint _ => true | _ => false
  | .pstr => match v with | .vstr _ => true | _ => false

/-- Lookup in a Python dict (`key in d` / `d[key]`). -/
def pyLookup : List (String × Val) → String → Option Val
  | [], _ => none
  | (k, v) :: rest, key => if k = key then some v else pyLookup rest key

/-- Explicit bind on `Except PyErr`, written out so proofs can unfold it
without monad machinery; an exception propagates outward exactly as a
Python exception unwinds the call stack. -/
def exBind {α β : Type} (x : Except PyErr α) (f : α → Except PyErr β) : Except PyErr β :=
  match x with
  | .error e => .error e
  | .ok a => f a

/-- The expected slot of an error triple: either a Python string (the
literals "dict"/"list" or a `__name__`), or the raw schema object that was
stored for a missing key. -/
inductive EDesc where
  | estr : String → EDesc
  | esch : Schema → EDesc

/-- One element of the `errors` list of `validate_format`:
`(path, expected, actual)`. -/
abbrev Disc := String × EDesc × String

/-- Decimal digit character. -/
def digitCh (n : Nat) : Char := Char.ofNat (48 + n % 10)

/-- Decimal digits of a natural number, fuel-bounded (the fuel `n + 1`
always suffices). -/
def natStrAux : Nat → Nat → List Char
  | 0, _ => []
  | fuel + 1, n => if n < 10 then [digitCh n] else natStrAux fuel (n / 10) ++ [digitCh (n % 10)]

/-- Python `str(i)` for a non-negative index. -/
def natStr (n : Nat) : String := String.mk (natStrAux (n + 1) n)

/-- The dict branch of `validate_format`: iterate the schema fields in
declared order; a key absent from the document appends
`(path/key, expected_type, "missing")`, a present key recurses via `rec`.
An exception raised at any field propagates, discarding earlier errors,
exactly as in Python. -/
def goFields (rec : Val → Schema → String → Except PyErr (List Disc))
    (kvs : List (String × Val)) :
    List (String × Schema) → String → Except PyErr (List Disc)
  | [], _ => .ok []
  | (key, esc) :: rest, path =>
    match pyLookup kvs key with
    | none =>
      exBind (goFields rec kvs rest path) (fun more =>
        .ok ((path ++ "/" ++ key, EDesc.esch esc, "missing") :: more))
    | some v =>
      exBind (rec v esc (path ++ "/" ++ key)) (fun here =>
        exBind (goFields rec kvs rest path) (fun more =>
          .ok (here ++ more)))

/-- The list branch of `validate_format`: validate each element of the
actual list against the single element schema, at path `path[i]`. -/
def goElems (rec : Val → Schema → String → Except PyErr (List Disc))
    (e0 : Schema) : List Val → Nat → String → Except PyErr (List Disc)
  | [], _, _ => .ok []
  | x :: rest, i, path =>
    exBind (rec x e0 (path ++ "[" ++ natStr i ++ "]")) (fun here =>
      exBind (goElems rec e0 rest (i + 1) path) (fun more =>
        .ok (here ++ more)))

mutual

/-- Size of a schema term, used as recursion fuel for the embedding of
`validate_format` (which in Python recurses structurally on the schema). -/
def schemaSize : Schema → Nat
  | .sty _ => 1
  | .stup _ => 1
  | .sdict fields => 1 + fieldsSize fields
  | .slist elems => 1 + elemsSize elems

/-- Size of a schema field list. -/
def fieldsSize : List (String × Schema) → Nat
  | [] => 0
  | (_, s) :: rest => 1 + schemaSize s + fieldsSize rest

/-- Size of a schema element list. -/
def elemsSize : List Schema → Nat
  | [] => 0
  | s :: rest => 1 + schemaSize s + elemsSize rest

end

/-- Fueled transcription of `validate_format(actual, expected, path)`.
The fuel only decreases when descending one schema level, so any fuel
larger than the schema's size gives the Python function's behaviour
(theorem `validateF_irrel`).  Note the faithful bug in the tuple case:
Python evaluates `expected.__name__` on the tuple `(int, str)` when
`isinstance` fails, which raises `AttributeError`. -/
def validateF : Nat → Val → Schema → String → Except PyErr (List Disc)
  | 0, _, _, _ => .error .fuelExhausted
  | n + 1, actual, expected, path =>
    match expected with
    | .sdict fields =>
      match actual with
      | .vdict kvs => goFields (validateF n) kvs fields path
      | _ => .ok [(path, EDesc.estr "dict", typeName actual)]
    | .slist elems =>
      match actual with
      | .vlist xs =>
        match elems with
        | [] => .ok []
        | e0 :: _ => goElems (validateF n) e0 xs 0 path
      | _ => .ok [(path, EDesc.estr "list", typeName actual)]
    | .sty t =>
      if instOf actual t then .ok []
      else .ok [(path, EDesc.estr (tyName t), typeName actual)]
    | .stup ts =>
      if ts.any (fun t => instOf actual t) then .ok []
      else .error .attributeError

/-- `validate_format(actual, expected, path)`: the fuel `schemaSize expected`
strictly bounds the schema recursion depth, so this equals the Python
function (which recurses structurally on the schema and needs no fuel);
see `validateF_irrel`. -/
def validate_format (actual : Val) (expected : Schema) (path : String) :
    Except PyErr (List Disc) :=
  validateF (schemaSize expected) actual expected path

/-- The `"basic"` sub-schema of `expected_format`. -/
def basicSchema : Schema :=
  .sdict
    [("name", .sty .pstr),
     ("address", .sty .pstr),
     ("email", .sty .pstr),
     ("phone", .sty .pstr),
     ("websites", .slist [.sty .pstr])]

/-- The `"education"` sub-schema of `expected_format`. -/
def educationSchema : Schema :=
  .slist
    [.sdict
       [("school", .sty .pstr),
        ("degrees", .slist [.sdict [("names", .slist [.sty .pstr])]])]]

/-- The `"experiences"` sub-schema of `expected_format`; note the
multi-type tuples `(int, str)` for `startdate` and `enddate`. -/
def experiencesSchema : Schema :=
  .slist
    [.sdict
       [("company", .sty .pstr),
        ("location", .sty .pstr),
        ("titles", .slist
           [.sdict
              [("name", .sty .pstr),
               ("startdate", .stup [.pint, .pstr]),
               ("enddate", .stup [.pint, .pstr])]]),
        ("highlights", .slist [.sty .pstr])]]

/-- The `"skills"` sub-schema of `expected_format`. -/
def skillsSchema : Schema :=
  .slist
    [.sdict
       [("category", .sty .pstr),
        ("skills", .slist [.sty .pstr])]]

/-- The top-level field list of `expected_format`, in source order. -/
def topFields : List (String × Schema) :=
  [("editing", .sty .pbool),
   ("debug", .sty .pbool),
   ("basic", basicSchema),
   ("objective", .sty .pstr),
   ("education", educationSchema),
   ("experiences", experiencesSchema),
   ("skills", skillsSchema)]

/-- The `expected_format` schema literal of `check_resume_format`. -/
def expected_format : Schema := .sdict topFields

/-- Python `s.split(sep)` for a one-character separator, on explicit
character lists: splits at every occurrence, keeping empty pieces, and
always returns at least one piece (`"".split('/') == ['']`). -/
def splitChar (c : Char) : List Char → List (List Char)
  | [] => [[]]
  | x :: xs =>
    if x = c then [] :: splitChar c xs
    else
      match splitChar c xs with
      | [] => [[x]]
      | g :: gs => (x :: g) :: gs

/-- Python `s.split(c)` on strings. -/
def pySplit (s : String) (c : Char) : List String :=
  (splitChar c s.data).map String.mk

/-- Python sequence indexing `l[i]` with negative-index wrap-around;
raises `IndexError` when out of range. -/
def pyIdx (l : List String) (i : Int) : Except PyErr String :=
  let j : Int := if i < 0 then (l.length : Int) + i else i
  if h : 0 ≤ j ∧ j < (l.length : Int) then
    .ok (l.get ⟨j.toNat, by omega⟩)
  else
    .error .indexError

/-- Python string slice `s[:-1]` (drop the last character; empty stays
empty). -/
def pyDropLast (s : String) : String := String.mk s.data.dropLast

/-- Whether a character occurs in a string. -/
def hasChar (c : Char) (s : String) : Bool := s.data.contains c

/-- The `example_snippets` dict literal of `check_resume_format`, in
source order. -/
def example_snippets : List (String × String) :=
  [("editing", "editing: true"),
   ("debug", "debug: false"),
   ("basic", "basic:\n  name: John Doe\n  address: Los Angeles, CA\n  email: johndoe@example.com\n  phone: 555-123-4567\n  websites:\n      - https://linkedin.com/johndoe\n      - https://github.com/johndoe"),
   ("objective", "objective: A Software Engineer with over 8 years of experience..."),
   ("education", "education:\n  - school: University of California, Berkeley\n    degrees:\n      - names:\n          - B.S. Computer Science\n  - school: Stanford University\n    degrees:\n      - names:\n          - M.S. Computer Science"),
   ("experiences", "experiences:\n  - company: Tech Innovators Inc.\n    location: San Francisco, CA\n    titles:\n      - name: Lead Software Engineer\n        startdate: 2022\n        enddate: 2024\n    highlights:\n      - Led the development of a cloud-based platform, increasing user engagement by 50%.\n      - Implemented a microservices architecture, reducing system downtime by 30%.\n      - Mentored a team of junior developers, fostering a culture of continuous learning and improvement.\n      - Spearheaded the integration of AI-driven features, enhancing product capabilities and user satisfaction."),
   ("skills", "skills:\n  - category: Technical\n    skills:\n      - JavaScript\n      - Python\n      - AWS\n      - Docker\n      - Kubernetes\n      - React\n      - Node.js\n      - Microservices\n      - CI/CD\n      - SQL\n      - NoSQL\n      - REST APIs\n  - category: Non-technical\n    skills:\n      - Strong problem-solving skills\n      - Excellent communication\n      - Team leadership\n      - Project management\n      - Agile methodologies")]

/-- Lookup in a Python str-to-str dict (`d.get(key, None)`). -/
def strLookup : List (String × String) → String → Option String
  | [], _ => none
  | (k, v) :: rest, key => if k = key then some v else strLookup rest key

/-- `get_example_snippet(path)`: take the first `/`-segment after the
root, strip a trailing `[...]` part, and look that key up in
`example_snippets` (returning `None` when absent).  The indexing `[1]`
can raise for a path without `/`, hence the `Except`. -/
def get_example_snippet (path : String) : Except PyErr (Option String) :=
  exBind (pyIdx (pySplit path '/') 1) (fun key1 =>
    exBind (pyIdx (pySplit key1 '[') 0) (fun key2 =>
      .ok (strLookup example_snippets key2)))

/-- The per-`main_key` record of the `consolidated_errors` dict:
`{"missing": [...], "incorrect": [...], "entries": [...]}`. -/
structure Issues where
  missing : List String
  incorrect : List (String × String × String)
  entries : List String

/-- Whether the consolidated dict already has a key. -/
def hasKey : List (String × Issues) → String → Bool
  | [], _ => false
  | (k, _) :: rest, key => if k = key then true else hasKey rest key

/-- `if main_key not in consolidated_errors: consolidated_errors[main_key]
= {...}` — insert a fresh record at the end, preserving insertion order. -/
def ensureKey (m : List (String × Issues)) (k : String) : List (String × Issues) :=
  if hasKey m k then m else m ++ [(k, ⟨[], [], []⟩)]

/-- In-place update of the record stored under a key (Python dict entry
mutation); keys are unique in a Python dict, so updating the first match
is exact. -/
def updateAssoc (f : Issues → Issues) : List (String × Issues) → String → List (String × Issues)
  | [], _ => []
  | (k, iss) :: rest, key =>
    if k = key then (k, f iss) :: rest else (k, iss) :: updateAssoc f rest key

/-- `consolidated_errors[main_key]["missing"].append(sub_key)`. -/
def addMissing (m : List (String × Issues)) (k s : String) : List (String × Issues) :=
  updateAssoc (fun i => ⟨i.missing ++ [s], i.incorrect, i.entries⟩) m k

/-- `consolidated_errors[main_key]["incorrect"].append(triple)`. -/
def addIncorrect (m : List (String × Issues)) (k : String) (t : String × String × String) :
    List (String × Issues) :=
  updateAssoc (fun i => ⟨i.missing, i.incorrect ++ [t], i.entries⟩) m k

/-- `consolidated_errors[main_key]["entries"].append(label)`. -/
def addEntry (m : List (String × Issues)) (k s : String) : List (String × Issues) :=
  updateAssoc (fun i => ⟨i.missing, i.incorrect, i.entries ++ [s]⟩) m k

/-- `__name__` of a raw schema object (line 170 of the source):
only a type object has `__name__`; a dict, list or tuple literal raises
`AttributeError`. -/
def schName : Schema → Except PyErr String
  | .sty t => .ok (tyName t)
  | _ => .error .attributeError

/-- The `if main_key == "experiences":` block of the consolidation loop:
`entry_index = path.split('/')[2].split('[')[-1][:-1]` (raising
`IndexError` when the path has fewer than three `/`-segments), then append
the label `f"experiences[{entry_index}]"`. -/
def expEntries (m : List (String × Issues)) (main_key path : String) :
    Except PyErr (List (String × Issues)) :=
  if main_key = "experiences" then
    exBind (pyIdx (pySplit path '/') 2) (fun seg =>
      exBind (pyIdx (pySplit seg '[') (-1)) (fun piece =>
        .ok (addEntry m main_key ("experiences[" ++ pyDropLast piece ++ "]"))))
  else .ok m

/-- The classification tail of one consolidation iteration: a `"missing"`
actual goes to the missing list; otherwise a string expected goes to the
incorrect list as-is, and a non-string expected contributes
`expected.__name__` (which raises for dict/list/tuple schema objects). -/
def classify (m : List (String × Issues)) (main_key sub_key : String) (e : EDesc)
    (act : String) : Except PyErr (List (String × Issues)) :=
  if act = "missing" then .ok (addMissing m main_key sub_key)
  else
    match e with
    | .estr s => .ok (addIncorrect m main_key (sub_key, act, s))
    | .esch sc =>
      exBind (schName sc) (fun nm => .ok (addIncorrect m main_key (sub_key, act, nm)))

/-- One iteration of `for error in errors:` — unpack the triple, compute
`main_key = path.split('/')[1]` (raising `IndexError` for a path without
`/`), `sub_key = path.split('/')[-1]`, ensure the record exists, run the
`"experiences"` special case, then classify. -/
def consolidateStep (m : List (String × Issues)) (d : Disc) :
    Except PyErr (List (String × Issues)) :=
  exBind (pyIdx (pySplit d.1 '/') 1) (fun main_key =>
    exBind (pyIdx (pySplit d.1 '/') (-1)) (fun sub_key =>
      exBind (expEntries (ensureKey m main_key) main_key d.1) (fun m2 =>
        classify m2 main_key sub_key d.2.1 d.2.2)))

/-- The whole consolidation loop, threading the accumulator. -/
def consolAux : List Disc → List (String × Issues) → Except PyErr (List (String × Issues))
  | [], m => .ok m
  | d :: rest, m => exBind (consolidateStep m d) (fun m2 => consolAux rest m2)

/-- `consolidated_errors` after the loop, starting from the empty dict. -/
def consolidateAll (errors : List Disc) : Except PyErr (List (String × Issues)) :=
  consolAux errors []

/-- Python `", ".join(...)`. -/
def joinComma : List String → String
  | [] => ""
  | [x] => x
  | x :: y :: rest => x ++ ", " ++ joinComma (y :: rest)

/-- First-occurrence deduplication, modelling the `set(...)` built from
the entries list.  CPython iterates a set of strings in an unspecified,
hash-dependent order; the embedding fixes first-occurrence order.  This
choice is inert for the shipped program: the entries list is provably
always empty (per-entry discrepancy paths put `experiences[i]`, not
`experiences`, in the first segment, and a discrepancy whose first
segment is exactly `experiences` makes the loop raise `IndexError`
before appending). -/
def dedupAux (seen : List String) : List String → List String
  | [] => []
  | x :: xs => if seen.contains x then dedupAux seen xs else x :: dedupAux (x :: seen) xs

/-- `", ".join(set(l))` under the order convention of `dedupAux`. -/
def setJoin (l : List String) : String := joinComma (dedupAux [] l)

/-- Python `str(...)` of the optional snippet as interpolated by the
f-strings: `str(None)` is the four-character string `"None"`. -/
def optionStr : Option String → String
  | none => "None"
  | some s => s

/-- The three f-string paragraph templates of the reporting loop, in
source order, for one `main_key`.  Apostrophes are written `\x27`. -/
def renderSection (main_key : String) (iss : Issues) (snippet : Option String) : String :=
  let s := optionStr snippet
  let p1 :=
    if main_key = "experiences" && !iss.entries.isEmpty then
      "\nYou have formatting errors in these experiences entries: \x27" ++
        setJoin iss.entries ++
        "\x27. Make sure they are formatted like this example:\n\n```yaml\n" ++ s ++ "\n```"
    else ""
  let p2 :=
    if !iss.missing.isEmpty then
      "\nYou are missing these keys: \x27" ++ joinComma iss.missing ++
        "\x27 in the \x27" ++ main_key ++
        "\x27 section. Make sure it is formatted like this example:\n\n```yaml\n" ++ s ++ "\n```"
    else ""
  let p3 := String.join (iss.incorrect.map (fun t =>
    "The value for \x27" ++ t.1 ++ "\x27 in the \x27" ++ main_key ++
      "\x27 section is of type \x27" ++ t.2.1 ++
      "\x27. \nExpected type: \x27" ++ t.2.2 ++
      "\x27. Make sure it is formatted like this example:\n\n```yaml\n" ++ s ++ "\n```"))
  p1 ++ p2 ++ p3

/-- The reporting loop over `consolidated_errors.items()` in insertion
order, accumulating `logger_error`; each iteration first calls
`get_example_snippet(f"/{main_key}")`. -/
def renderAux : List (String × Issues) → String → Except PyErr String
  | [], acc => .ok acc
  | (k, iss) :: rest, acc =>
    exBind (get_example_snippet ("/" ++ k)) (fun snip =>
      renderAux rest (acc ++ renderSection k iss snip))

/-- The full `logger_error` message for a non-empty consolidated dict. -/
def renderAll (m : List (String × Issues)) : Except PyErr String := renderAux m ""

/-- `check_resume_format` after `yaml.safe_load` has produced `doc`:
validate, consolidate, and if any consolidated errors exist, render the
composite message, emit it once via `config.logger.error` and return
`False`; otherwise return `True` with no message.  The result pair is
(returned boolean, message passed to the logger if any); `.error e`
means the Python call raises exception `e` instead of returning. -/
def check_resume_format (doc : Val) : Except PyErr (Bool × Option String) :=
  exBind (validate_format doc expected_format "") (fun errors =>
    exBind (consolidateAll errors) (fun cons =>
      if cons.isEmpty then .ok (true, none)
      else
        exBind (renderAll cons) (fun msg => .ok (false, some msg))))

/-- Character-list prefix test. -/
def leadsWith : List Char → List Char → Bool
  | [], _ => true
  | _ :: _, [] => false
  | a :: as, b :: bs => a = b && leadsWith as bs

/-- Number of positions of `hay` at which `needle` occurs, plus `acc`.
Tail-recursive with a strictly forced accumulator (the `match` on the sum
keeps kernel evaluation shallow on long messages). -/
def countTail (needle : List Char) : List Char → Nat → Nat
  | [], acc => acc + (if leadsWith needle [] then 1 else 0)
  | c :: rest, acc =>
    match acc + (if leadsWith needle (c :: rest) then 1 else 0) with
    | 0 => countTail needle rest 0
    | Nat.succ m => countTail needle rest (Nat.succ m)

/-- Number of occurrences of `needle` inside `hay` (counting start
positions; a needle can start at every position of `hay` including its
end). -/
def countOcc (needle hay : String) : Nat := countTail needle.data hay.data 0

/-- Whether a `check_resume_format` outcome is a normal return of `False`
together with a logged message. -/
def isFailure : Except PyErr (Bool × Option String) → Bool
  | .ok (false, some _) => true
  | _ => false

/-- The message component of a `check_resume_format` outcome (empty when
the call raised or logged nothing). -/
def msgOf (r : Except PyErr (Bool × Option String)) : String :=
  match r with
  | .ok (_, some m) => m
  | _ => ""

/-- A well-formed experiences entry, used to build concrete documents. -/
def goodEntry : Val :=
  .vdict
    [("company", .vstr "Tech Innovators Inc."),
     ("location", .vstr "San Francisco, CA"),
     ("titles", .vlist
        [.vdict
           [("name", .vstr "Lead Software Engineer"),
            ("startdate", .vint 2022),
            ("enddate", .vint 2024)]]),
     ("highlights", .vlist [.vstr "Led the development of a cloud-based platform."])]

/-- A well-formed `"basic"` value. -/
def basicVal : Val :=
  .vdict
    [("name", .vstr "John Doe"),
     ("address", .vstr "Los Angeles, CA"),
     ("email", .vstr "johndoe@example.com"),
     ("phone", .vstr "555-123-4567"),
     ("websites", .vlist [.vstr "https://linkedin.com/johndoe"])]

/-- A well-formed `"education"` value. -/
def educationVal : Val :=
  .vlist
    [.vdict
       [("school", .vstr "University of California, Berkeley"),
        ("degrees", .vlist [.vdict [("names", .vlist [.vstr "B.S. Computer Science"])]])]]

/-- A well-formed `"skills"` value. -/
def skillsVal : Val :=
  .vlist
    [.vdict
       [("category", .vstr "Technical"),
        ("skills", .vlist [.vstr "Python"])]]

/-- `validDoc` with a chosen experiences list. -/
def docWithExperiences (e : Val) : Val :=
  .vdict
    [("editing", .vbool true),
     ("debug", .vbool false),
     ("basic", basicVal),
     ("objective", .vstr "A Software Engineer with over 8 years of experience..."),
     ("education", educationVal),
     ("experiences", e),
     ("skills", skillsVal)]

/-- A document that satisfies `expected_format` exactly. -/
def validDoc : Val := docWithExperiences (.vlist [goodEntry])

/-- The fields of a document lacking only the `"objective"` key. -/
def noObjectiveFields : List (String × Val) :=
  [("editing", .vbool true),
   ("debug", .vbool false),
   ("basic", basicVal),
   ("education", educationVal),
   ("experiences", .vlist [goodEntry]),
   ("skills", skillsVal)]

/-- `goodEntry` with a chosen `startdate` value. -/
def entryWithStart (v : Val) : Val :=
  .vdict
    [("company", .vstr "Tech Innovators Inc."),
     ("location", .vstr "San Francisco, CA"),
     ("titles", .vlist
        [.vdict
           [("name", .vstr "Lead Software Engineer"),
            ("startdate", v),
            ("enddate", .vint 2024)]]),
     ("highlights", .vlist [.vstr "Led the development of a cloud-based platform."])]

/-- `validDoc` with the `startdate` of the only title replaced. -/
def docWithStart (v : Val) : Val := docWithExperiences (.vlist [entryWithStart v])

/-- An experiences entry whose `company` and `location` are integers:
two type discrepancies inside one entry. -/
def doublyBadEntry : Val :=
  .vdict
    [("company", .vint 1),
     ("location", .vint 2),
     ("titles", .vlist
        [.vdict
           [("name", .vstr "Lead Software Engineer"),
            ("startdate", .vint 2022),
            ("enddate", .vint 2024)]]),
     ("highlights", .vlist [.vstr "Led the development of a cloud-based platform."])]

/-- Malformed entries at exactly indices 0 and 2; index 0 carries two
discrepancies, index 2 one. -/
def doc5 : Val := docWithExperiences (.vlist [doublyBadEntry, goodEntry, .vnull])

/-- Whether a value is a Python dict. -/
def isDict : Val → Bool
  | .vdict _ => true
  | _ => false

/-- Whether a value is a Python list. -/
def isList : Val → Bool
  | .vlist _ => true
  | _ => false

/-- A schema term has positive size. -/
theorem schemaSize_pos (s : Schema) : 1 ≤ schemaSize s := by
  cases s <;> simp [schemaSize]

/-- A field's schema is smaller than the enclosing dict schema. -/
theorem schemaSize_lt_of_mem_fields {k : String} {s : Schema} :
    ∀ {fields : List (String × Schema)}, (k, s) ∈ fields →
      schemaSize s < schemaSize (Schema.sdict fields) := by
  intro fields hm
  induction fields with
  | nil => cases hm
  | cons kv rest ih =>
    rcases List.mem_cons.mp hm with h | h
    · subst h
      simp [schemaSize, fieldsSize]
      omega
    · have := ih h
      obtain ⟨k2, s2⟩ := kv
      simp [schemaSize, fieldsSize] at this ⊢
      omega

/-- The element schema is smaller than the enclosing list schema. -/
theorem schemaSize_lt_head_elems (e0 : Schema) (rest : List Schema) :
    schemaSize e0 < schemaSize (Schema.slist (e0 :: rest)) := by
  simp [schemaSize, elemsSize]
  omega

/-- `goFields` only consults its recursion callback on schemas occurring in
the field list. -/
theorem goFields_congr (r1 r2 : Val → Schema → String → Except PyErr (List Disc))
    (kvs : List (String × Val)) :
    ∀ (fields : List (String × Schema)) (path : String),
      (∀ k s, (k, s) ∈ fields → ∀ v p, r1 v s p = r2 v s p) →
      goFields r1 kvs fields path = goFields r2 kvs fields path := by
  intro fields
  induction fields with
  | nil => intro path h; rfl
  | cons kv rest ih =>
    intro path h
    obtain ⟨k, s⟩ := kv
    have h2 := ih path (fun k2 s2 hm => h k2 s2 (List.mem_cons_of_mem _ hm))
    simp only [goFields]
    cases pyLookup kvs k with
    | none => simp only [h2]
    | some v =>
      have h1 := h k s (List.mem_cons_self _ _) v (path ++ "/" ++ k)
      simp only [h1, h2]

/-- `goElems` only consults its recursion callback on the element schema. -/
theorem goElems_congr (r1 r2 : Val → Schema → String → Except PyErr (List Disc))
    (e0 : Schema) (h : ∀ v p, r1 v e0 p = r2 v e0 p) :
    ∀ (xs : List Val) (i : Nat) (path : String),
      goElems r1 e0 xs i path = goElems r2 e0 xs i path := by
  intro xs
  induction xs with
  | nil => intro i path; rfl
  | cons x rest ih =>
    intro i path
    simp only [goElems]
    rw [h x (path ++ "[" ++ natStr i ++ "]"), ih (i + 1) path]

/-- Fuel irrelevance: any two fuels at least the schema size give the same
result, so `validateF` with such fuel is the Python `validate_format`. -/
theorem validateF_irrel :
    ∀ (n m : Nat) (a : Val) (s : Schema) (p : String),
      schemaSize s ≤ n → schemaSize s ≤ m → validateF n a s p = validateF m a s p := by
  intro n
  induction n with
  | zero =>
    intro m a s p h1 h2
    have hp := schemaSize_pos s
    omega
  | succ n ih =>
    intro m a s p h1 h2
    cases m with
    | zero =>
      have hp := schemaSize_pos s
      omega
    | succ m =>
      cases s with
      | sty t => rfl
      | stup ts => rfl
      | sdict fields =>
        cases a with
        | vdict kvs =>
          show goFields (validateF n) kvs fields p = goFields (validateF m) kvs fields p
          apply goFields_congr
          intro k s hm v p2
          have hlt := schemaSize_lt_of_mem_fields hm
          exact ih m v s p2 (by omega) (by omega)
        | vnull => rfl
        | vbool b => rfl
        | vint i => rfl
        | vstr s2 => rfl
        | vlist xs => rfl
      | slist elems =>
        cases a with
        | vlist xs =>
          cases elems with
          | nil => rfl
          | cons e0 rest =>
            show goElems (validateF n) e0 xs 0 p = goElems (validateF m) e0 xs 0 p
            apply goElems_congr
            intro v p2
            have hlt := schemaSize_lt_head_elems e0 rest
            exact ih m v e0 p2 (by omega) (by omega)
        | vnull => rfl
        | vbool b => rfl
        | vint i => rfl
        | vstr s2 => rfl
        | vdict kvs => rfl

/-- Any sufficient fuel computes `validate_format`. -/
theorem validateF_eq_validate_format (n : Nat) (a : Val) (s : Schema) (p : String)
    (h : schemaSize s ≤ n) : validateF n a s p = validate_format a s p :=
  validateF_irrel n (schemaSize s) a s p h (Nat.le_refl _)

/-- Updating a record in place never changes the number of keys. -/
theorem updateAssoc_ne_nil (f : Issues → Issues) :
    ∀ (m : List (String × Issues)) (k : String), m ≠ [] → updateAssoc f m k ≠ [] := by
  intro m k hm
  cases m with
  | nil => exact absurd rfl hm
  | cons kv rest =>
    obtain ⟨k2, iss⟩ := kv
    simp only [updateAssoc]
    split <;> simp

/-- `ensureKey` always leaves the dict non-empty. -/
theorem ensureKey_ne_nil (m : List (String × Issues)) (k : String) : ensureKey m k ≠ [] := by
  unfold ensureKey
  split
  · cases m with
    | nil => simp [hasKey] at *
    | cons kv rest => simp
  · simp

/-- The experiences block preserves non-emptiness of the dict. -/
theorem expEntries_ne_nil (m : List (String × Issues)) (mk p : String)
    (m2 : List (String × Issues)) (hm : m ≠ []) (h : expEntries m mk p = .ok m2) : m2 ≠ [] := by
  unfold expEntries at h
  split at h
  · cases h1 : pyIdx (pySplit p '/') 2 with
    | error e => rw [h1] at h; simp [exBind] at h
    | ok seg =>
      rw [h1] at h
      simp only [exBind] at h
      cases h2 : pyIdx (pySplit seg '[') (-1) with
      | error e => rw [h2] at h; simp [exBind] at h
      | ok piece =>
        rw [h2] at h
        simp only [exBind, Except.ok.injEq] at h
        subst h
        exact updateAssoc_ne_nil _ m mk hm
  · simp only [Except.ok.injEq] at h
    subst h
    exact hm

/-- Classification preserves non-emptiness of the dict. -/
theorem classify_ne_nil (m : List (String × Issues)) (mk sk : String) (e : EDesc)
    (act : String) (m2 : List (String × Issues)) (hm : m ≠ [])
    (h : classify m mk sk e act = .ok m2) : m2 ≠ [] := by
  unfold classify at h
  split at h
  · simp only [Except.ok.injEq] at h
    subst h
    exact updateAssoc_ne_nil _ m mk hm
  · cases e with
    | estr s =>
      simp only [Except.ok.injEq] at h
      subst h
      exact updateAssoc_ne_nil _ m mk hm
    | esch sc =>
      cases hn : schName sc with
      | error e2 => simp [hn, exBind] at h
      | ok nm =>
        simp only [hn, exBind, Except.ok.injEq] at h
        subst h
        exact updateAssoc_ne_nil _ m mk hm

/-- One successful consolidation iteration leaves the dict non-empty. -/
theorem consolidateStep_ne_nil (m : List (String × Issues)) (d : Disc)
    (m2 : List (String × Issues)) (h : consolidateStep m d = .ok m2) : m2 ≠ [] := by
  unfold consolidateStep at h
  cases h1 : pyIdx (pySplit d.1 '/') 1 with
  | error e => rw [h1] at h; simp [exBind] at h
  | ok mk =>
    rw [h1] at h
    simp only [exBind] at h
    cases h2 : pyIdx (pySplit d.1 '/') (-1) with
    | error e => rw [h2] at h; simp [exBind] at h
    | ok sk =>
      rw [h2] at h
      simp only [exBind] at h
      cases h3 : expEntries (ensureKey m mk) mk d.1 with
      | error e => rw [h3] at h; simp [exBind] at h
      | ok mm =>
        rw [h3] at h
        simp only [exBind] at h
        exact classify_ne_nil mm mk sk d.2.1 d.2.2 m2
          (expEntries_ne_nil _ mk d.1 mm (ensureKey_ne_nil m mk) h3) h

/-- A successful consolidation run from a non-empty dict stays non-empty. -/
theorem consolAux_ne_nil :
    ∀ (errs : List Disc) (m cons : List (String × Issues)),
      consolAux errs m = .ok cons → m ≠ [] → cons ≠ [] := by
  intro errs
  induction errs with
  | nil =>
    intro m cons h hm
    simp only [consolAux, Except.ok.injEq] at h
    subst h
    exact hm
  | cons d rest ih =>
    intro m cons h hm
    simp only [consolAux] at h
    cases hs : consolidateStep m d with
    | error e => rw [hs] at h; simp [exBind] at h
    | ok m2 =>
      rw [hs] at h
      simp only [exBind] at h
      exact ih m2 cons h (consolidateStep_ne_nil m d m2 hs)

/-- The consolidated dict is empty exactly when the raw error list was. -/
theorem consolidateAll_nil_iff (errs : List Disc) (cons : List (String × Issues))
    (h : consolidateAll errs = .ok cons) : cons = [] ↔ errs = [] := by
  constructor
  · intro hc
    cases errs with
    | nil => rfl
    | cons d rest =>
      exfalso
      unfold consolidateAll at h
      simp only [consolAux] at h
      cases hs : consolidateStep [] d with
      | error e => rw [hs] at h; simp [exBind] at h
      | ok m2 =>
        rw [hs] at h
        simp only [exBind] at h
        exact consolAux_ne_nil rest m2 cons h (consolidateStep_ne_nil [] d m2 hs) hc
  · intro he
    subst he
    unfold consolidateAll consolAux at h
    simp only [Except.ok.injEq] at h
    exact h.symm

/-- C1.  Amended contract: for every parsed document on which
`check_resume_format` returns at all (rather than raising `IndexError` or
`AttributeError`), it returns `true` iff `validate_format` produced an
empty discrepancy list; on a non-empty list it returns `false` and emits
exactly one composite message through the logger (the `some` component),
and on an empty list it returns `true` and emits nothing. -/
theorem C1_check_contract (doc : Val) (b : Bool) (m : Option String)
    (h : check_resume_format doc = .ok (b, m)) :
    (b = true ↔ validate_format doc expected_format "" = .ok []) ∧
    (b = false → ∃ s, m = some s) ∧
    (b = true → m = none) := by
  unfold check_resume_format at h
  cases hv : validate_format doc expected_format "" with
  | error e => rw [hv] at h; simp [exBind] at h
  | ok errs =>
    rw [hv] at h
    simp only [exBind] at h
    cases hc : consolidateAll errs with
    | error e => rw [hc] at h; simp [exBind] at h
    | ok cons =>
      rw [hc] at h
      simp only [exBind] at h
      by_cases hemp : cons.isEmpty
      · rw [if_pos hemp] at h
        simp only [Except.ok.injEq, Prod.mk.injEq] at h
        obtain ⟨hb, hm⟩ := h
        subst hb
        subst hm
        have herrs : errs = [] :=
          (consolidateAll_nil_iff errs cons hc).mp (List.isEmpty_iff.mp hemp)
        subst herrs
        exact ⟨by simp [hv], by simp, fun _ => rfl⟩
      · rw [if_neg hemp] at h
        cases hr : renderAll cons with
        | error e => rw [hr] at h; simp [exBind] at h
        | ok msg =>
          rw [hr] at h
          simp only [exBind, Except.ok.injEq, Prod.mk.injEq] at h
          obtain ⟨hb, hm⟩ := h
          subst hb
          subst hm
          have herrs : errs ≠ [] := by
            intro he
            exact hemp (by simp [(consolidateAll_nil_iff errs cons hc).mpr he])
          refine ⟨?_, fun _ => ⟨msg, rfl⟩, by simp⟩
          constructor
          · intro hfalse
            cases hfalse
          · intro hconc
            exact absurd (Except.ok.inj hconc) herrs

/-- Witness for C1 at a fully conforming document. -/
theorem C1_check_contract_witness :
    (true = true ↔ validate_format validDoc expected_format "" = .ok []) ∧
    (true = false → ∃ s, (none : Option String) = some s) ∧
    (true = true → (none : Option String) = none) :=
  C1_check_contract validDoc true none rfl

/-- Counterexample for C1 as stated: the empty document (YAML `null`)
parses successfully and yields a non-empty discrepancy list, yet
`check_resume_format` raises `IndexError` instead of returning `false`
with a logged message. -/
theorem C1_counterexample :
    validate_format .vnull expected_format "" = .ok [("", EDesc.estr "dict", "NoneType")] ∧
    check_resume_format .vnull = .error PyErr.indexError :=
  ⟨rfl, rfl⟩

/-- C2.  The claim fails on the code: a document whose
`experiences[0].titles[0].startdate` is a list (outside the allowed
`(int, str)`) makes `validate_format` evaluate `expected.__name__` on a
tuple, raising `AttributeError` instead of returning a discrepancy list;
the exception also escapes `check_resume_format`. -/
theorem C2_tuple_mismatch_raises :
    validate_format (docWithStart (.vlist [])) expected_format "" =
      .error PyErr.attributeError ∧
    check_resume_format (docWithStart (.vlist [])) = .error PyErr.attributeError :=
  ⟨rfl, rfl⟩

/-- C3.  The multi-type `startdate` constraint accepts both an integer and
a text value (no discrepancy at all), but a value of a third type (a list)
raises `AttributeError` instead of producing the one discrepancy the claim
describes. -/
theorem C3_multitype_startdate :
    validate_format (docWithStart (.vint 2022)) expected_format "" = .ok [] ∧
    validate_format (docWithStart (.vstr "June 2022")) expected_format "" = .ok [] ∧
    validate_format (docWithStart (.vlist [])) expected_format "" =
      .error PyErr.attributeError :=
  ⟨rfl, rfl, rfl⟩

/-- C4.  The claim fails on the code for the one depth-1 path it singles
out: a discrepancy located at the top-level `experiences` key itself
(here: `experiences` is `null`, yielding path `/experiences`) makes the
consolidation loop evaluate `path.split('/')[2]`, which raises
`IndexError`; the check never returns. -/
theorem C4_depth1_experiences_raises :
    validate_format (docWithExperiences .vnull) expected_format "" =
      .ok [("/experiences", EDesc.estr "list", "NoneType")] ∧
    consolidateAll [("/experiences", EDesc.estr "list", "NoneType")] =
      .error PyErr.indexError ∧
    check_resume_format (docWithExperiences .vnull) = .error PyErr.indexError :=
  ⟨rfl, rfl, rfl⟩



/-- C10.  Whenever the parsed top-level value is not a mapping (e.g. an
empty file parsing to `null`, or a top-level sequence), the root
discrepancy has the empty-string path, and consolidating it evaluates
`"".split('/')[1]`, raising `IndexError` instead of returning `false`. -/
theorem C10_non_mapping_raises (a : Val) (h : isDict a = false) :
    validate_format a expected_format "" = .ok [("", EDesc.estr "dict", typeName a)] ∧
    check_resume_format a = .error PyErr.indexError := by
  cases a with
  | vdict kvs => simp [isDict] at h
  | vnull => exact ⟨rfl, rfl⟩
  | vbool b => exact ⟨rfl, rfl⟩
  | vint i => exact ⟨rfl, rfl⟩
  | vstr s => exact ⟨rfl, rfl⟩
  | vlist xs => exact ⟨rfl, rfl⟩

/-- Witness for C10 at a document parsing to a top-level sequence. -/
theorem C10_non_mapping_raises_witness :
    validate_format (.vlist []) expected_format "" =
      .ok [("", EDesc.estr "dict", typeName (.vlist []))] ∧
    check_resume_format (.vlist []) = .error PyErr.indexError :=
  C10_non_mapping_raises (.vlist []) rfl

set_option maxRecDepth 1000000 in
/-- C5.  The claim fails on the code: for `doc5` (malformed experiences
entries at exactly indices 0 and 2 — index 0 with two wrongly-typed
fields, index 2 not a mapping; the three discrepancies of the first
conjunct are the complete validator output) the check returns `false`
with a logged message that names `experiences[0]` twice (once per
incorrect-type paragraph) and `experiences[2]` twice (as field name and
as section name of its one paragraph), and no other entry label.  The
deduplicating set-based entries paragraph never renders, because
per-entry discrepancy paths put `experiences[i]`, not `experiences`,
into the first path segment. -/
theorem C5_entry_labels_repeated :
    validate_format doc5 expected_format "" =
      .ok [("/experiences[0]/company", EDesc.estr "str", "int"),
           ("/experiences[0]/location", EDesc.estr "str", "int"),
           ("/experiences[2]", EDesc.estr "dict", "NoneType")] ∧
    isFailure (check_resume_format doc5) = true ∧
    countOcc "experiences[0]" (msgOf (check_resume_format doc5)) = 2 ∧
    countOcc "experiences[1]" (msgOf (check_resume_format doc5)) = 0 ∧
    countOcc "experiences[2]" (msgOf (check_resume_format doc5)) = 2 :=
  ⟨rfl, rfl, by decide, by decide, by decide⟩

set_option maxRecDepth 10000 in
/-- C6.  For every document that is a mapping lacking the key
`"objective"` while every other top-level field is present and conforms
to its sub-schema, `validate_format` returns exactly one discrepancy:
its actual descriptor is the missing sentinel `"missing"` and its path is
the single segment `objective` (rendered by the validator as
`"/objective"`, i.e. the root-anchored one-segment path). -/
theorem C6_missing_objective
    (kvs : List (String × Val))
    (hobj : pyLookup kvs "objective" = none)
    (ved : Val) (hed : pyLookup kvs "editing" = some ved)
    (hedok : validate_format ved (.sty .pbool) "/editing" = .ok [])
    (vdb : Val) (hdb : pyLookup kvs "debug" = some vdb)
    (hdbok : validate_format vdb (.sty .pbool) "/debug" = .ok [])
    (vb : Val) (hb : pyLookup kvs "basic" = some vb)
    (hbok : validate_format vb basicSchema "/basic" = .ok [])
    (vedu : Val) (hedu : pyLookup kvs "education" = some vedu)
    (heduok : validate_format vedu educationSchema "/education" = .ok [])
    (vex : Val) (hex : pyLookup kvs "experiences" = some vex)
    (hexok : validate_format vex experiencesSchema "/experiences" = .ok [])
    (vsk : Val) (hsk : pyLookup kvs "skills" = some vsk)
    (hskok : validate_format vsk skillsSchema "/skills" = .ok []) :
    validate_format (.vdict kvs) expected_format "" =
      .ok [("/objective", EDesc.esch (.sty .pstr), "missing")] := by
  obtain ⟨n, hn⟩ : ∃ n, schemaSize expected_format = n + 1 :=
    ⟨schemaSize expected_format - 1, by have := schemaSize_pos expected_format; omega⟩
  have hle : ∀ s : Schema, schemaSize s < schemaSize expected_format → schemaSize s ≤ n := by
    intro s h2
    omega
  have bed : validateF n ved (Schema.sty .pbool) ("" ++ "/" ++ "editing") = .ok [] := by
    rw [validateF_eq_validate_format n ved _ _ (hle _ (by decide))]
    exact hedok
  have bdb : validateF n vdb (Schema.sty .pbool) ("" ++ "/" ++ "debug") = .ok [] := by
    rw [validateF_eq_validate_format n vdb _ _ (hle _ (by decide))]
    exact hdbok
  have bb : validateF n vb basicSchema ("" ++ "/" ++ "basic") = .ok [] := by
    rw [validateF_eq_validate_format n vb _ _ (hle _ (by decide))]
    exact hbok
  have bedu : validateF n vedu educationSchema ("" ++ "/" ++ "education") = .ok [] := by
    rw [validateF_eq_validate_format n vedu _ _ (hle _ (by decide))]
    exact heduok
  have bex : validateF n vex experiencesSchema ("" ++ "/" ++ "experiences") = .ok [] := by
    rw [validateF_eq_validate_format n vex _ _ (hle _ (by decide))]
    exact hexok
  have bsk : validateF n vsk skillsSchema ("" ++ "/" ++ "skills") = .ok [] := by
    rw [validateF_eq_validate_format n vsk _ _ (hle _ (by decide))]
    exact hskok
  have step : validateF (n + 1) (.vdict kvs) (.sdict topFields) "" =
      goFields (validateF n) kvs topFields "" := rfl
  simp only [validate_format, hn]
  rw [show expected_format = Schema.sdict topFields from rfl, step]
  simp only [topFields]
  simp only [goFields, hobj, hed, hdb, hb, hedu, hex, hsk,
    bed, bdb, bb, bedu, bex, bsk, exBind, List.nil_append]
  rfl

/-- Witness for C6 at a concrete document lacking only `"objective"`. -/
theorem C6_missing_objective_witness :
    validate_format (.vdict noObjectiveFields) expected_format "" =
      .ok [("/objective", EDesc.esch (.sty .pstr), "missing")] :=
  C6_missing_objective noObjectiveFields rfl
    (.vbool true) rfl rfl
    (.vbool false) rfl rfl
    basicVal rfl rfl
    educationVal rfl rfl
    (.vlist [goodEntry]) rfl rfl
    skillsVal rfl rfl

/-- C7.  A dict schema applied to a non-dict value yields exactly the one
discrepancy `(path, "dict", actual type name)` — the embedding's literal
shape tags `"dict"`/`"list"` realise the spec's abstract tags
`mapping`/`sequence` — and no discrepancy for any descendant of that
schema node (the result is exactly the singleton, so descent stops);
symmetrically for a list schema applied to a non-list value. -/
theorem C7_shape_mismatch :
    (∀ (a : Val) (fields : List (String × Schema)) (p : String), isDict a = false →
      validate_format a (.sdict fields) p = .ok [(p, EDesc.estr "dict", typeName a)]) ∧
    (∀ (a : Val) (elems : List Schema) (p : String), isList a = false →
      validate_format a (.slist elems) p = .ok [(p, EDesc.estr "list", typeName a)]) := by
  constructor
  · intro a fields p h
    obtain ⟨n, hn⟩ : ∃ n, schemaSize (Schema.sdict fields) = n + 1 :=
      ⟨schemaSize (Schema.sdict fields) - 1,
        by have := schemaSize_pos (Schema.sdict fields); omega⟩
    simp only [validate_format, hn]
    cases a with
    | vdict kvs => simp [isDict] at h
    | vnull => rfl
    | vbool b => rfl
    | vint i => rfl
    | vstr s => rfl
    | vlist xs => rfl
  · intro a elems p h
    obtain ⟨n, hn⟩ : ∃ n, schemaSize (Schema.slist elems) = n + 1 :=
      ⟨schemaSize (Schema.slist elems) - 1,
        by have := schemaSize_pos (Schema.slist elems); omega⟩
    simp only [validate_format, hn]
    cases a with
    | vlist xs => simp [isList] at h
    | vnull => rfl
    | vbool b => rfl
    | vint i => rfl
    | vstr s => rfl
    | vdict kvs => rfl

/-- Witness for C7 at concrete shape mismatches. -/
theorem C7_shape_mismatch_witness :
    validate_format .vnull (.sdict [("a", .sty .pstr)]) "" =
      .ok [("", EDesc.estr "dict", typeName .vnull)] ∧
    validate_format (.vint 3) (.slist [.sty .pstr]) "/x" =
      .ok [("/x", EDesc.estr "list", typeName (.vint 3))] :=
  ⟨C7_shape_mismatch.1 .vnull [("a", .sty .pstr)] "" rfl,
   C7_shape_mismatch.2 (.vint 3) [.sty .pstr] "/x" rfl⟩

/-- Shadowing an unused key does not change a dict lookup. -/
theorem pyLookup_cons_ne (k : String) (v : Val) (kvs : List (String × Val))
    (key : String) (h : k ≠ key) : pyLookup ((k, v) :: kvs) key = pyLookup kvs key := by
  simp [pyLookup, h]

/-- `goFields` ignores document keys that are not in the schema field
list. -/
theorem goFields_extra (rec : Val → Schema → String → Except PyErr (List Disc))
    (k : String) (v : Val) (kvs : List (String × Val)) :
    ∀ (fields : List (String × Schema)) (path : String),
      k ∉ fields.map Prod.fst →
      goFields rec ((k, v) :: kvs) fields path = goFields rec kvs fields path := by
  intro fields
  induction fields with
  | nil => intro path h; rfl
  | cons kv rest ih =>
    intro path h
    obtain ⟨key, esc⟩ := kv
    simp only [List.map_cons, List.mem_cons] at h
    push_neg at h
    obtain ⟨hne, hrest⟩ := h
    simp only [goFields, pyLookup_cons_ne k v kvs key (by exact hne), ih path hrest]

/-- C8.  Extra document keys absent from a dict schema's field list are
ignored: inserting such a key (at the front of the dict, where it also
shadows any later binding of the same name, which the schema never
consults) leaves the output of `validate_format` unchanged — hence
adding or removing extra keys never contributes a discrepancy. -/
theorem C8_extra_keys_ignored (kvs : List (String × Val))
    (fields : List (String × Schema)) (k : String) (v : Val) (p : String)
    (h : k ∉ fields.map Prod.fst) :
    validate_format (.vdict ((k, v) :: kvs)) (.sdict fields) p =
      validate_format (.vdict kvs) (.sdict fields) p := by
  obtain ⟨n, hn⟩ : ∃ n, schemaSize (Schema.sdict fields) = n + 1 :=
    ⟨schemaSize (Schema.sdict fields) - 1,
      by have := schemaSize_pos (Schema.sdict fields); omega⟩
  simp only [validate_format, hn]
  show goFields (validateF n) ((k, v) :: kvs) fields p = goFields (validateF n) kvs fields p
  exact goFields_extra (validateF n) k v kvs fields p h

/-- Witness for C8: adding the extra key `"zzz"` to a document checked
against the full resume schema changes nothing. -/
theorem C8_extra_keys_ignored_witness :
    validate_format (.vdict (("zzz", .vnull) :: noObjectiveFields)) (.sdict topFields) "" =
      validate_format (.vdict noObjectiveFields) (.sdict topFields) "" :=
  C8_extra_keys_ignored noObjectiveFields topFields "zzz" .vnull "" (by decide)

/-- Rebuilding a string from its character data is the identity. -/
theorem stringMk_data (s : String) : String.mk s.data = s := rfl

/-- String concatenation is associative (via list append on the data). -/
theorem strAppend_assoc (a b c : String) : a ++ b ++ c = a ++ (b ++ c) := by
  cases a with
  | mk la =>
    cases b with
    | mk lb =>
      cases c with
      | mk lc =>
        show String.mk ((la ++ lb) ++ lc) = String.mk (la ++ (lb ++ lc))
        exact congrArg String.mk (List.append_assoc la lb lc)

/-- Splitting on a character that does not occur yields one piece. -/
theorem splitChar_not_mem (c : Char) :
    ∀ l : List Char, l.contains c = false → splitChar c l = [l] := by
  intro l
  induction l with
  | nil => intro h; rfl
  | cons x xs ih =>
    intro h
    simp only [List.contains_cons, Bool.or_eq_false_iff] at h
    obtain ⟨hx, hxs⟩ := h
    have hne : ¬x = c := by
      intro he
      subst he
      simp at hx
    simp only [splitChar, if_neg hne, ih hxs]

/-- Splitting starts a fresh piece at a leading separator. -/
theorem splitChar_cons_self (c : Char) (l : List Char) :
    splitChar c (c :: l) = [] :: splitChar c l := by
  simp [splitChar]

/-- `('/' ++ k).split('/') == ['', k]` when `k` has no slash. -/
theorem pySplit_slash (k : String) (h : hasChar '/' k = false) :
    pySplit ("/" ++ k) '/' = ["", k] := by
  have hdata : ("/" ++ k).data = '/' :: k.data := by
    cases k
    rfl
  rw [pySplit, hdata, splitChar_cons_self, splitChar_not_mem '/' k.data h]
  simp [stringMk_data]

/-- `k.split(c) == [k]` when `c` does not occur in `k`. -/
theorem pySplit_nosplit (c : Char) (k : String) (h : hasChar c k = false) :
    pySplit k c = [k] := by
  simp only [pySplit]
  rw [splitChar_not_mem c k.data h]
  simp [stringMk_data]

/-- C9.  Amended: a group of discrepancies whose top-level section name
has no entry in the example table still produces the full report without
failing, but the example-snippet position of its paragraphs renders the
Python string `"None"` (`str(None)` interpolated by the f-string), not
nothing. -/
theorem C9_missing_snippet_renders_None (k exp act : String)
    (h1 : hasChar '/' k = false) (h2 : hasChar '[' k = false)
    (h3 : k ≠ "experiences") (h4 : act ≠ "missing")
    (h5 : strLookup example_snippets k = none) :
    consolidateAll [("/" ++ k, EDesc.estr exp, act)] =
      .ok [(k, ⟨[], [(k, act, exp)], []⟩)] ∧
    renderAll [(k, ⟨[], [(k, act, exp)], []⟩)] =
      .ok ("The value for \x27" ++ k ++ "\x27 in the \x27" ++ k ++
        "\x27 section is of type \x27" ++ act ++ "\x27. \nExpected type: \x27" ++ exp ++
        "\x27. Make sure it is formatted like this example:\n\n```yaml\nNone\n```") := by
  have hsp : pySplit ("/" ++ k) '/' = ["", k] := pySplit_slash k h1
  have i1 : pyIdx ["", k] 1 = .ok k := rfl
  have im1 : pyIdx ["", k] (-1) = .ok k := rfl
  constructor
  · simp only [consolidateAll, consolAux, consolidateStep, hsp, i1, im1, exBind,
      expEntries, if_neg h3, classify, if_neg h4, ensureKey, hasKey,
      addIncorrect, updateAssoc, if_pos, List.nil_append]
  · have hsnip : get_example_snippet ("/" ++ k) = .ok none := by
      simp only [get_example_snippet, hsp, i1, exBind, pySplit_nosplit '[' k h2]
      have i0 : pyIdx [k] 0 = .ok k := rfl
      simp only [i0, exBind, h5]
    simp only [renderAll, renderAux, hsnip, exBind, renderSection, optionStr]
    simp only [List.isEmpty_nil, Bool.not_true, Bool.and_false, List.map_cons,
      List.map_nil]
    simp only [String.join, List.foldl, strAppend_assoc]
    have htail :
        ("\x27. Make sure it is formatted like this example:\n\n```yaml\n" ++
          ("None" ++ "\n```") : String) =
        "\x27. Make sure it is formatted like this example:\n\n```yaml\nNone\n```" := rfl
    rw [htail]
    simp [strAppend_assoc]

/-- Witness for C9 at the concrete section name `"zzz"`. -/
theorem C9_missing_snippet_renders_None_witness :
    consolidateAll [("/" ++ "zzz", EDesc.estr "str", "int")] =
      .ok [("zzz", ⟨[], [("zzz", "int", "str")], []⟩)] ∧
    renderAll [("zzz", ⟨[], [("zzz", "int", "str")], []⟩)] =
      .ok ("The value for \x27" ++ "zzz" ++ "\x27 in the \x27" ++ "zzz" ++
        "\x27 section is of type \x27" ++ "int" ++ "\x27. \nExpected type: \x27" ++ "str" ++
        "\x27. Make sure it is formatted like this example:\n\n```yaml\nNone\n```") :=
  C9_missing_snippet_renders_None "zzz" "str" "int" rfl rfl (by decide) (by decide) rfl

/-- Counterexample for C9 as stated: for a section name absent from the
example table the report renders the text `None` inside the fenced
example block, not an empty snippet position. -/
theorem C9_counterexample :
    consolidateAll [("/zzz", EDesc.estr "str", "int")] =
      .ok [("zzz", ⟨[], [("zzz", "int", "str")], []⟩)] ∧
    renderAll [("zzz", ⟨[], [("zzz", "int", "str")], []⟩)] =
      .ok "The value for \x27zzz\x27 in the \x27zzz\x27 section is of type \x27int\x27. \nExpected type: \x27str\x27. Make sure it is formatted like this example:\n\n```yaml\nNone\n```" :=
  ⟨rfl, rfl⟩
